import Mathlib

/-!
Verification of the CSV batch-processing / completion-detection pipeline.

This file gives a shallow embedding of the orchestration logic of the
repository (the `CsvProcessor` service, the assistant-response waiter, the
message-sending error handling and the CSV checkpoint writer) and proves the
behavioural properties stated about them.

Conventions of the embedding:
* JS strings are Lean `String`s; the falsiness test `!s` on a string is
  modelled as `s = ""` (both `undefined` and the empty string are falsy, and
  the CSV layer yields `""` for a missing cell).
* Effectful calls into the browser page are parameters (oracles): a function
  from the attempt number to `Except String String` models one invocation of
  `sendMessageWithAttachments` (`.error msg` models a thrown exception with
  message `msg`, `.ok s` a returned response `s`).
* Regular-expression `test` calls are embedded by an explicit backtracking
  matcher over character lists (`seqMatchF`); the `/i` flag is modelled by
  lower-casing the subject, source patterns being lower case already.
-/

/-- ASCII lower-casing of a character list; models the effect of the `/i`
regular-expression flag on the subject string (all pattern literals in the
source are embedded lower-cased). -/
def lowerChars (s : List Char) : List Char :=
  s.map Char.toLower

/-- One pattern element: a literal to find (split as first char / rest so the
literal is provably non-empty), preceded by a lazy gap; the `Bool` says
whether that gap may contain a newline (`[\s\S]*?` vs `.*?`). -/
def PatTok : Type := Bool × Char × List Char

/-- Build a pattern element from the gap flag and the literal's first char /
remaining chars as a string. -/
def tok (allowNL : Bool) (c : Char) (rest : String) : PatTok :=
  (allowNL, c, rest.data)

/-- Fuel-driven backtracking matcher: `seqMatchF f ps s = true` iff `s`
contains, in order, every literal of `ps`, where the gap before each literal
obeys that element's newline flag.  The fuel only bounds the recursion: with
`f = s.length` it never runs out (each step consumes at least one character
of `s`). -/
def seqMatchF : Nat → List PatTok → List Char → Bool
  | _, [], _ => true
  | _, _ :: _, [] => false
  | 0, _ :: _, _ :: _ => false
  | f + 1, (anl, c0, lrest) :: ps, c :: s =>
    (List.isPrefixOf (c0 :: lrest) (c :: s) && seqMatchF f ps (s.drop lrest.length))
    || ((anl || !(c = '\n')) && seqMatchF f ((anl, c0, lrest) :: ps) s)

/-- Case-insensitive unanchored regex `test` of a literal/lazy-gap pattern. -/
def regexTestCI (ps : List PatTok) (s : String) : Bool :=
  seqMatchF s.data.length ps (lowerChars s.data)

/-- Embedding of `gradeDataPattern = /<GRADE_DATA>[\s\S]*?<\/GRADE_DATA>/i`
(`csvProcessor.ts`). -/
def gradeDataPattern : List PatTok :=
  [tok true '<' "grade_data>", tok true '<' "/grade_data>"]

/-- `/<Student ID>.*?<\/Student ID>/i`. -/
def studentIdTagPattern : List PatTok :=
  [tok true '<' "student id>", tok false '<' "/student id>"]

/-- `/Student ID:.*?\n/i`. -/
def studentIdLinePattern : List PatTok :=
  [tok true 's' "tudent id:", tok false '\n' ""]

/-- `/<Name>.*?<\/Name>/i`. -/
def nameTagPattern : List PatTok :=
  [tok true '<' "name>", tok false '<' "/name>"]

/-- `/Name:.*?\n/i`. -/
def nameLinePattern : List PatTok :=
  [tok true 'n' "ame:", tok false '\n' ""]

/-- `/<.*?Score>.*?<\/.*?Score>/i`. -/
def scoreTagPattern : List PatTok :=
  [tok true '<' "", tok false 's' "core>", tok false '<' "/", tok false 's' "core>"]

/-- `/.*?score:.*?\n/i` (the leading lazy gap is irrelevant for `test`). -/
def scoreLinePattern : List PatTok :=
  [tok true 's' "core:", tok false '\n' ""]

/-- `/<Total Score>.*?<\/Total Score>/i`. -/
def totalScoreTagPattern : List PatTok :=
  [tok true '<' "total score>", tok false '<' "/total score>"]

/-- `/total_score:.*?\n/i`. -/
def totalScoreLinePattern : List PatTok :=
  [tok true 't' "otal_score:", tok false '\n' ""]

/-- `appConfig.errorHandling.errorIdentifier` (`appConfig.ts`). -/
def errorIdentifier : String := "ERROR"

/-- Executable substring test on character lists. -/
def listIsInfixOf : List Char → List Char → Bool
  | pat, [] => pat.isEmpty
  | pat, c :: s => List.isPrefixOf pat (c :: s) || listIsInfixOf pat s

/-- JS `String.prototype.includes` (case sensitive substring test). -/
def strIncludes (s pat : String) : Bool :=
  listIsInfixOf pat.data s.data

/-- The error-sentinel result written by `CsvProcessor.handleRowError` once
all retries are exhausted:
`` `${errorIdentifier} (after ${maxRetries} retries): ${errorMessage}` ``. -/
def mkErrorResponse (maxRetries : Nat) (errorMessage : String) : String :=
  errorIdentifier ++ " (after " ++ toString maxRetries ++ " retries): " ++ errorMessage

/-- `CsvProcessor.validateGradeContent` (`csvProcessor.ts` lines 398-424):
content-quality check over four regex pairs. -/
def validateGradeContent (response : String) : Bool :=
  let hasStudentInfo :=
    regexTestCI studentIdTagPattern response || regexTestCI studentIdLinePattern response
  let hasName :=
    regexTestCI nameTagPattern response || regexTestCI nameLinePattern response
  let hasScore :=
    regexTestCI scoreTagPattern response || regexTestCI scoreLinePattern response
  let hasTotalScore :=
    regexTestCI totalScoreTagPattern response || regexTestCI totalScoreLinePattern response
  (hasStudentInfo || hasName) && (hasScore || hasTotalScore)

/-- `CsvProcessor.validateResponseFormat` (`csvProcessor.ts` lines 431-444):
empty responses fail; otherwise require the `GRADE_DATA` structure and then
the content-quality check. -/
def validateResponseFormat (response : String) : Bool :=
  if response = "" then false
  else if !(regexTestCI gradeDataPattern response) then false
  else validateGradeContent response

/-- One work unit: a CSV row (`CsvPromptRow`).  The source interface carries
further identification columns (`student_name`, `student_id`, `has_video`)
that no processing decision reads; the fields used by the processor are kept.
`response = ""` models a missing/empty result cell. -/
structure CsvPromptRow where
  prompt : String
  file_paths : String
  response : String
  deriving Repr, DecidableEq

instance : Inhabited CsvPromptRow := ⟨⟨"", "", ""⟩⟩

/-- `CsvProcessor.shouldProcessRow` (`csvProcessor.ts` lines 108-121). -/
def shouldProcessRow (retryFailedRows : Bool) (row : CsvPromptRow) : Bool :=
  if row.response = "" then true
  else if retryFailedRows && strIncludes row.response errorIdentifier then true
  else false

/-- Result of the per-row retry loop of `CsvProcessor.processRowWithRetry`:
the final value of `row.response`, the number of invocations of
`sendMessageWithAttachments` performed (`retryCount` of the last iteration
plus one), and the list of `retryCount` values at which
`CsvProcessor.handleRetry` ran (each such run sleeps the backoff delay and
re-verifies the chat textarea before the next attempt). -/
structure LoopResult where
  response : String
  attemptsUsed : Nat
  recoveries : List Nat
  deriving Repr, DecidableEq

/-- Loop body of `CsvProcessor.processRowWithRetry` (`csvProcessor.ts` lines
212-278) together with `handleRowError` (lines 361-395), entered at
`retryCount = r`.  The structural fuel `k` equals `maxRetries - r`, the
number of retries still allowed, so `k = 0` iff `r = maxRetries`; this turns
the source's `while (!success && retryCount <= maxRetries)` loop into
structural recursion.  `oracle r` is the outcome of the `r`-th invocation of
`sendMessageWithAttachments`: a thrown error (`.error`) or a returned
response (`.ok`).  An `.ok` response failing `validateResponseFormat` while
retries remain throws (line 237) and is retried; on the final attempt it is
stored anyway (lines 247-255). -/
def retryLoopGo (maxRetries : Nat) (oracle : Nat → Except String String) :
    Nat → Nat → LoopResult
  | r, 0 =>
    let recov : List Nat := if r = 0 then [] else [r]
    match oracle r with
    | .ok resp => ⟨resp, r + 1, recov⟩
    | .error msg => ⟨mkErrorResponse maxRetries msg, r + 1, recov⟩
  | r, k + 1 =>
    let recov : List Nat := if r = 0 then [] else [r]
    match oracle r with
    | .ok resp =>
      if validateResponseFormat resp then ⟨resp, r + 1, recov⟩
      else
        let rest := retryLoopGo maxRetries oracle (r + 1) k
        ⟨rest.response, rest.attemptsUsed, recov ++ rest.recoveries⟩
    | .error _ =>
      let rest := retryLoopGo maxRetries oracle (r + 1) k
      ⟨rest.response, rest.attemptsUsed, recov ++ rest.recoveries⟩

/-- `CsvProcessor.processRowWithRetry` for one row: run the retry loop from
`retryCount = 0` with `maxRetries` retries allowed. -/
def retryLoop (maxRetries : Nat) (oracle : Nat → Except String String) : LoopResult :=
  retryLoopGo maxRetries oracle 0 maxRetries

/-- The total-attempt ceiling: the source bounds retries by
`appConfig.timing.maxRetries`, i.e. the first attempt plus `maxRetries`
retries, matching the spec's 1-based `maxAttempts` ceiling. -/
def maxAttempts (maxRetries : Nat) : Nat := maxRetries + 1

/-- The backoff delay slept by `CsvProcessor.handleRetry` (`csvProcessor.ts`
lines 340-343) before retry number `a`:
`Math.min(initialRetryDelay * Math.pow(2, retryCount - 1), maxRetryDelay)`. -/
def backoffDelay (initialDelay maxDelay a : Nat) : Nat :=
  min (initialDelay * 2 ^ (a - 1)) maxDelay

/-- The backoff delays actually slept during a run of the retry loop, in
order (one per `handleRetry` invocation). -/
def sleptBackoffs (initialDelay maxDelay : Nat) (run : LoopResult) : List Nat :=
  run.recoveries.map (backoffDelay initialDelay maxDelay)

/-- `appConfig.timing.initialRetryDelay`. -/
def initialRetryDelay : Nat := 5000

/-- `appConfig.timing.maxRetryDelay`. -/
def maxRetryDelay : Nat := 30000

/-- `CsvProcessor.processRow` for one row (`csvProcessor.ts` lines 126-179),
up to the shared page effects: skip when `shouldProcessRow` is false, skip
when the row has no prompt, otherwise run the retry loop and store its final
response.  Returns the updated row, whether the row was actually processed
(i.e. reached `processRowWithRetry`), and the number of attempts used. -/
def processRowModel (retryFailedRows : Bool) (maxRetries : Nat)
    (oracle : Nat → Except String String) (row : CsvPromptRow) :
    CsvPromptRow × Bool × Nat :=
  if !(shouldProcessRow retryFailedRows row) then (row, false, 0)
  else if row.prompt = "" then (row, false, 0)
  else
    let res := retryLoop maxRetries oracle
    ({ row with response := res.response }, true, res.attemptsUsed)

/-- Observable persistence events of a batch run: a unit starting, and a
checkpoint (`writeCsvPrompts(csvPath, allRows)`) of the full queue. -/
inductive BatchEvent where
  | unitStart (i : Nat)
  | checkpoint (snapshot : List CsvPromptRow)
  deriving Repr, DecidableEq

/-- Result of a batch run: the final queue, the ordered persistence events,
and how many units were actually processed. -/
structure BatchResult where
  queue : List CsvPromptRow
  events : List BatchEvent
  processedCount : Nat
  deriving Repr, DecidableEq

/-- The queue after one unit: index `i` replaced by the row
`processRow` produces for it. -/
def stepQueue (retryFailedRows : Bool) (maxRetries : Nat)
    (oracle : Nat → Nat → Except String String) (i : Nat)
    (q : List CsvPromptRow) : List CsvPromptRow :=
  q.set i (processRowModel retryFailedRows maxRetries (oracle i) (q.getD i default)).1

/-- The per-row loop of `CsvProcessor.processRows` (`csvProcessor.ts` lines
64-74) over an explicit index order.  Each unit emits its start, then — when
it was actually processed — the save made as soon as its response was stored
(`processRowWithRetry` line 261 on success, `handleRowError` line 389 on
final failure), then the unconditional save of the `finally` block
(lines 171-178), before the next unit's events. -/
def runBatchAux (retryFailedRows : Bool) (maxRetries : Nat)
    (oracle : Nat → Nat → Except String String) :
    List Nat → List CsvPromptRow → BatchResult
  | [], q => ⟨q, [], 0⟩
  | i :: rest, q =>
    let pr := processRowModel retryFailedRows maxRetries (oracle i) (q.getD i default)
    let q' := q.set i pr.1
    let res := runBatchAux retryFailedRows maxRetries oracle rest q'
    ⟨res.queue,
     BatchEvent.unitStart i ::
       ((if pr.2.1 then [BatchEvent.checkpoint q'] else [])
         ++ BatchEvent.checkpoint q' :: res.events),
     (if pr.2.1 then 1 else 0) + res.processedCount⟩

/-- The index order of `CsvProcessor.processRows`: forward, or reversed when
`processInReverse` is set. -/
def batchOrder (n : Nat) (processInReverse : Bool) : List Nat :=
  if processInReverse then (List.range n).reverse else List.range n

/-- `CsvProcessor.processRows`: drive every row, in forward or reverse
order, through `processRow`. -/
def runBatch (retryFailedRows processInReverse : Bool) (maxRetries : Nat)
    (oracle : Nat → Nat → Except String String) (rows : List CsvPromptRow) :
    BatchResult :=
  runBatchAux retryFailedRows maxRetries oracle (batchOrder rows.length processInReverse) rows

/-- Mutable closure state of the response wait (`waitHelpers.ts`):
`lastLength`, `stableCount`, and the current stability window
`maxStableTime` (15000 by default, shortened to 5000 once a Continue button
has been seen). -/
structure DetState where
  lastLength : Nat
  stableCount : Nat
  maxStableTime : Nat
  deriving Repr, DecidableEq

/-- Initial wait state (`lastLength = 0`, `stableCount = 0`,
`maxStableTime = 15000`). -/
def initDetState : DetState := ⟨0, 0, 15000⟩

/-- What one 5-second polling tick of `waitForAssistantResponse`
(`waitHelpers.ts`) observes on the page: the three completion affordances,
whether an assistant-message element exists, its current text, and whether
the probes of this tick failed (threw). -/
structure TickObs where
  sendEnabled : Bool
  regenerate : Bool
  continueBtn : Bool
  hasResponse : Bool
  text : String
  probeFail : Bool
  deriving Repr, DecidableEq

/-- Outcome of one polling tick: the promise resolves with a payload, or the
wait continues with updated closure state. -/
inductive TickResult where
  | resolved (payload : String)
  | pending (s : DetState)
  deriving Repr, DecidableEq

/-- `isResponseComplete` (`waitHelpers.ts` lines 138-188): returns whether a
completion predicate fired, together with the updated `maxStableTime`
(mutated only by the Continue-button branch).  A probe failure makes the
whole check return `false` (the `catch` branch), leaving the window
unchanged. -/
def isResponseCompleteModel (o : TickObs) (ms : Nat) : Bool × Nat :=
  if o.probeFail then (false, ms)
  else if o.sendEnabled then (true, ms)
  else if o.regenerate then (true, ms)
  else if o.continueBtn then (false, 5000)
  else (false, ms)

/-- One run of the `responseCheckInterval` callback (`waitHelpers.ts` lines
191-252).  If the completion check fired and the latest response text is
non-empty, resolve with it; with an empty text the code falls through to the
content-growth measurement.  Content-growth: a positive, unchanged length
accumulates stability (5000 per tick) and resolves once the accumulated time
reaches the window; any change resets the accumulation and records the new
length.  A failing tick is swallowed by its `catch` and leaves the state
as it was. -/
def responseCheckTick (o : TickObs) (s : DetState) : TickResult :=
  if o.probeFail then .pending s
  else
    let c := isResponseCompleteModel o s.maxStableTime
    let s1 : DetState := { s with maxStableTime := c.2 }
    if c.1 ∧ o.text ≠ "" then .resolved o.text
    else if o.hasResponse then
      let len := o.text.length
      if len > 0 ∧ len = s1.lastLength then
        let sc := s1.stableCount + 1
        if sc * 5000 ≥ s1.maxStableTime then .resolved o.text
        else .pending { s1 with stableCount := sc, lastLength := len }
      else .pending { s1 with stableCount := 0, lastLength := len }
    else .pending s1

/-- Run the polling ticks that fit before the hard ceiling elapses; `none`
means no tick resolved (the global timeout fires). -/
def runTicks : List TickObs → DetState → Option String
  | [], _ => none
  | o :: rest, s =>
    match responseCheckTick o s with
    | .resolved p => some p
    | .pending s' => runTicks rest s'

/-- The rejection message of the global timeout promise
(`waitHelpers.ts` line 300). -/
def timeoutMsg (timeout : Nat) : String :=
  "Waiting for assistant response timed out after " ++ toString timeout ++ "ms"

/-- `waitForAssistantResponse` (`waitHelpers.ts` lines 95-347) as a function
of the tick observations that fit before `timeout` and of the final fallback
probe made in the outer `catch`: if some tick resolved, return its payload;
otherwise the timeout promise rejects and the `catch` returns the probed
partial text when it is non-empty (`none` models a failing or empty-handed
probe), else rethrows the timeout error. -/
def waitForAssistantResponseModel (timeout : Nat) (ticks : List TickObs)
    (s : DetState) (finalProbe : Option String) : Except String String :=
  match runTicks ticks s with
  | some p => .ok p
  | none =>
    match finalProbe with
    | some p => if p = "" then .error (timeoutMsg timeout) else .ok p
    | none => .error (timeoutMsg timeout)

/-- `MessageSender.handleResponseError` (`messageSender.ts` lines 182-211):
on an error from the wait, probe the last assistant message; return it when
non-empty, otherwise rethrow the original error.  `none` models a failing
probe. -/
def handleResponseErrorModel (e : String) (probe : Option String) :
    Except String String :=
  match probe with
  | some p => if p = "" then .error e else .ok p
  | none => .error e

/-- `ChatInteractionService.sendMessageWithAttachments` response handling
(`chatInteractionService.ts` lines 83-96): return the wait's response, or on
a thrown wait error fall back to `handleResponseError`. -/
def sendMessageWithAttachmentsModel (waitResult : Except String String)
    (errProbe : Option String) : Except String String :=
  match waitResult with
  | .ok r => .ok r
  | .error e => handleResponseErrorModel e errProbe

/-- What one polling tick of the `ui/index.ts` revision of
`waitForAssistantResponse` observes: additionally whether the page URL has
diverged to a new chat (`/new` or `/c/new`), and the result of the one last
content probe made in that branch (`none` models a probe that threw or a
URL off the expected domain, leaving `partialResponse = ''`). -/
structure UiTickObs where
  newChat : Bool
  lossProbe : Option String
  sendEnabled : Bool
  regenerate : Bool
  continueBtn : Bool
  hasResponse : Bool
  text : String
  probeFail : Bool
  deriving Repr, DecidableEq

/-- The in-band sentinel resolved when navigation to a new chat is detected
with no partial payload (`ui/index.ts` line 268). -/
def navigationErrorMsg : String :=
  "ERROR: Navigation to new chat detected during response"

/-- One run of the `responseCheckInterval` callback of the `ui/index.ts`
revision (lines 240-332): the tick first checks the URL; on divergence to a
new chat it makes one last content probe and resolves with the partial text
or, when that is empty, with the in-band error sentinel.  Otherwise it
behaves as the base tick (`isResponseComplete` of this revision also checks
the URL first, but that branch is unreachable here since the tick already
returned on divergence). -/
def uiResponseCheckTick (o : UiTickObs) (s : DetState) : TickResult :=
  if o.newChat then
    let p := o.lossProbe.getD ""
    .resolved (if p = "" then navigationErrorMsg else p)
  else
    responseCheckTick
      ⟨o.sendEnabled, o.regenerate, o.continueBtn, o.hasResponse, o.text, o.probeFail⟩ s

/-- The two files touched by `CsvService.writeCsvPrompts`: the main CSV and
its `.bak` sibling; `none` means the file does not exist.  File contents
stand for the `Papa.unparse` serialisation of a queue. -/
structure CsvFs where
  main : Option String
  bak : Option String
  deriving Repr, DecidableEq

/-- `CsvService.writeCsvPrompts` (part_008 lines 320-340): first copy the
main CSV to `<csvPath>.bak` — but only when the main file exists and no
backup exists yet — then overwrite the main CSV with the new serialised
queue. -/
def writeCsvPrompts (fs : CsvFs) (content : String) : CsvFs :=
  let bak' := if fs.main.isSome ∧ fs.bak = none then fs.main else fs.bak
  { main := some content, bak := bak' }

/-- A sequence of checkpoint writes against the same CSV path. -/
def writeCsvRun (fs : CsvFs) : List String → CsvFs
  | [] => fs
  | c :: cs => writeCsvRun (writeCsvPrompts fs c) cs

/-! ### Basic list and string lemmas -/

theorem getD_set_self {α : Type} :
    ∀ (l : List α) (i : Nat) (a d : α), i < l.length → (l.set i a).getD i d = a
  | [], i, _, _, h => absurd h (by simp)
  | _ :: _, 0, _, _, _ => rfl
  | _ :: xs, i + 1, a, d, h => by
    simpa using getD_set_self xs i a d (Nat.lt_of_succ_lt_succ (by simpa using h))

theorem getD_set_ne {α : Type} :
    ∀ (l : List α) (i j : Nat) (a d : α), i ≠ j → (l.set j a).getD i d = l.getD i d
  | [], _, _, _, _, _ => rfl
  | _ :: _, 0, 0, _, _, h => absurd rfl h
  | _ :: _, 0, _ + 1, _, _, _ => rfl
  | _ :: _, _ + 1, 0, _, _, _ => rfl
  | _ :: xs, i + 1, j + 1, a, d, h => by
    simpa using getD_set_ne xs i j a d (fun hh => h (by omega))

theorem getD_of_length_le {α : Type} (l : List α) (i : Nat) (d : α)
    (h : l.length ≤ i) : l.getD i d = d := by
  simp [List.getD_eq_getElem?_getD, List.getElem?_eq_none h]

theorem mkErrorResponse_ne_empty (m : Nat) (msg : String) :
    mkErrorResponse m msg ≠ "" := by
  intro h
  have h2 := congrArg String.length h
  simp only [mkErrorResponse, errorIdentifier, String.length_append] at h2
  have h5 : ("ERROR" : String).length = 5 := rfl
  have h0 : ("" : String).length = 0 := rfl
  omega

/-! ### Retry-loop lemmas -/

theorem retryLoopGo_final_ok (m : Nat) (oracle : Nat → Except String String)
    (r : Nat) (p : String) (hok : oracle r = .ok p) :
    retryLoopGo m oracle r 0 = ⟨p, r + 1, if r = 0 then [] else [r]⟩ := by
  simp [retryLoopGo, hok]

theorem retryLoopGo_final_error (m : Nat) (oracle : Nat → Except String String)
    (r : Nat) (msg : String) (herr : oracle r = .error msg) :
    retryLoopGo m oracle r 0
      = ⟨mkErrorResponse m msg, r + 1, if r = 0 then [] else [r]⟩ := by
  simp [retryLoopGo, herr]

theorem retryLoopGo_ok_valid (m : Nat) (oracle : Nat → Except String String)
    (r k : Nat) (p : String) (hok : oracle r = .ok p)
    (hv : validateResponseFormat p = true) :
    retryLoopGo m oracle r k = ⟨p, r + 1, if r = 0 then [] else [r]⟩ := by
  cases k <;> simp [retryLoopGo, hok, hv]

theorem retryLoopGo_ok_invalid (m : Nat) (oracle : Nat → Except String String)
    (r k : Nat) (p : String) (hok : oracle r = .ok p)
    (hv : validateResponseFormat p = false) :
    retryLoopGo m oracle r (k + 1)
      = ⟨(retryLoopGo m oracle (r + 1) k).response,
         (retryLoopGo m oracle (r + 1) k).attemptsUsed,
         (if r = 0 then [] else [r]) ++ (retryLoopGo m oracle (r + 1) k).recoveries⟩ := by
  simp [retryLoopGo, hok, hv]

theorem retryLoopGo_error_step (m : Nat) (oracle : Nat → Except String String)
    (r k : Nat) (msg : String) (herr : oracle r = .error msg) :
    retryLoopGo m oracle r (k + 1)
      = ⟨(retryLoopGo m oracle (r + 1) k).response,
         (retryLoopGo m oracle (r + 1) k).attemptsUsed,
         (if r = 0 then [] else [r]) ++ (retryLoopGo m oracle (r + 1) k).recoveries⟩ := by
  simp [retryLoopGo, herr]

theorem retryLoopGo_response_const_ok (m : Nat) (oracle : Nat → Except String String)
    (p : String) (hok : ∀ a, oracle a = .ok p) :
    ∀ (k r : Nat), (retryLoopGo m oracle r k).response = p := by
  intro k
  induction k with
  | zero => intro r; rw [retryLoopGo_final_ok m oracle r p (hok r)]
  | succ k ih =>
    intro r
    by_cases hv : validateResponseFormat p = true
    · rw [retryLoopGo_ok_valid m oracle r (k + 1) p (hok r) hv]
    · rw [retryLoopGo_ok_invalid m oracle r k p (hok r) (by simpa using hv)]
      exact ih (r + 1)

theorem retryLoopGo_all_error (m : Nat) (oracle : Nat → Except String String)
    (msg : Nat → String) (herr : ∀ a, oracle a = .error (msg a)) :
    ∀ (k r : Nat), r + k = m →
      (retryLoopGo m oracle r k).response = mkErrorResponse m (msg m)
      ∧ (retryLoopGo m oracle r k).attemptsUsed = m + 1 := by
  intro k
  induction k with
  | zero =>
    intro r hr
    have hrm : r = m := by omega
    subst hrm
    rw [retryLoopGo_final_error r oracle r (msg r) (herr r)]
    exact ⟨rfl, rfl⟩
  | succ k ih =>
    intro r hr
    rw [retryLoopGo_error_step m oracle r k (msg r) (herr r)]
    exact ih (r + 1) (by omega)

theorem retryLoopGo_response_ne_empty (m : Nat) (oracle : Nat → Except String String)
    (hne : ∀ a s, oracle a = .ok s → s ≠ "") :
    ∀ (k r : Nat), (retryLoopGo m oracle r k).response ≠ "" := by
  intro k
  induction k with
  | zero =>
    intro r
    cases h : oracle r with
    | ok s =>
      rw [retryLoopGo_final_ok m oracle r s h]
      exact hne r s h
    | error msg =>
      rw [retryLoopGo_final_error m oracle r msg h]
      exact mkErrorResponse_ne_empty m msg
  | succ k ih =>
    intro r
    cases h : oracle r with
    | ok s =>
      by_cases hv : validateResponseFormat s = true
      · rw [retryLoopGo_ok_valid m oracle r (k + 1) s h hv]
        exact hne r s h
      · rw [retryLoopGo_ok_invalid m oracle r k s h (by simpa using hv)]
        exact ih (r + 1)
    | error msg =>
      rw [retryLoopGo_error_step m oracle r k msg h]
      exact ih (r + 1)

theorem retryLoopGo_recoveries_pos (m : Nat) (oracle : Nat → Except String String) :
    ∀ (k r : Nat), 1 ≤ r →
      (retryLoopGo m oracle r k).recoveries
        = List.range' r ((retryLoopGo m oracle r k).attemptsUsed - r)
      ∧ r + 1 ≤ (retryLoopGo m oracle r k).attemptsUsed := by
  intro k
  induction k with
  | zero =>
    intro r hr
    have hif : (if r = 0 then ([] : List Nat) else [r]) = [r] := by
      simp [Nat.pos_iff_ne_zero.mp hr]
    cases h : oracle r with
    | ok s =>
      rw [retryLoopGo_final_ok m oracle r s h]
      refine ⟨?_, Nat.le_refl _⟩
      show (if r = 0 then ([] : List Nat) else [r]) = List.range' r (r + 1 - r)
      rw [hif, show r + 1 - r = 1 by omega]
      simp
    | error msg =>
      rw [retryLoopGo_final_error m oracle r msg h]
      refine ⟨?_, Nat.le_refl _⟩
      show (if r = 0 then ([] : List Nat) else [r]) = List.range' r (r + 1 - r)
      rw [hif, show r + 1 - r = 1 by omega]
      simp
  | succ k ih =>
    intro r hr
    have hif : (if r = 0 then ([] : List Nat) else [r]) = [r] := by
      simp [Nat.pos_iff_ne_zero.mp hr]
    have hstep :
        (retryLoopGo m oracle (r + 1) k).recoveries
            = List.range' (r + 1) ((retryLoopGo m oracle (r + 1) k).attemptsUsed - (r + 1)) →
          (r + 1) + 1 ≤ (retryLoopGo m oracle (r + 1) k).attemptsUsed →
          (if r = 0 then ([] : List Nat) else [r]) ++ (retryLoopGo m oracle (r + 1) k).recoveries
            = List.range' r ((retryLoopGo m oracle (r + 1) k).attemptsUsed - r) := by
      intro h1 h2
      calc (if r = 0 then ([] : List Nat) else [r]) ++ (retryLoopGo m oracle (r + 1) k).recoveries
          = r :: (retryLoopGo m oracle (r + 1) k).recoveries := by rw [hif]; rfl
        _ = r :: List.range' (r + 1) ((retryLoopGo m oracle (r + 1) k).attemptsUsed - (r + 1)) := by
              rw [h1]
        _ = List.range' r ((retryLoopGo m oracle (r + 1) k).attemptsUsed - r) := by
              rw [show (retryLoopGo m oracle (r + 1) k).attemptsUsed - r
                    = ((retryLoopGo m oracle (r + 1) k).attemptsUsed - (r + 1)) + 1 by omega,
                  List.range'_succ]
    cases h : oracle r with
    | ok s =>
      by_cases hv : validateResponseFormat s = true
      · rw [retryLoopGo_ok_valid m oracle r (k + 1) s h hv]
        refine ⟨?_, Nat.le_refl _⟩
        show (if r = 0 then ([] : List Nat) else [r]) = List.range' r (r + 1 - r)
        rw [hif, show r + 1 - r = 1 by omega]
        simp
      · rw [retryLoopGo_ok_invalid m oracle r k s h (by simpa using hv)]
        obtain ⟨h1, h2⟩ := ih (r + 1) (by omega)
        exact ⟨hstep h1 h2, Nat.le_of_succ_le h2⟩
    | error msg =>
      rw [retryLoopGo_error_step m oracle r k msg h]
      obtain ⟨h1, h2⟩ := ih (r + 1) (by omega)
      exact ⟨hstep h1 h2, Nat.le_of_succ_le h2⟩

theorem retryLoop_recoveries (m : Nat) (oracle : Nat → Except String String) :
    (retryLoop m oracle).recoveries
      = List.range' 1 ((retryLoop m oracle).attemptsUsed - 1) := by
  unfold retryLoop
  cases m with
  | zero =>
    cases h : oracle 0 with
    | ok s => rw [retryLoopGo_final_ok 0 oracle 0 s h]; simp
    | error msg => rw [retryLoopGo_final_error 0 oracle 0 msg h]; simp
  | succ k =>
    cases h : oracle 0 with
    | ok s =>
      by_cases hv : validateResponseFormat s = true
      · rw [retryLoopGo_ok_valid (k + 1) oracle 0 (k + 1) s h hv]; simp
      · rw [retryLoopGo_ok_invalid (k + 1) oracle 0 k s h (by simpa using hv)]
        obtain ⟨h1, h2⟩ := retryLoopGo_recoveries_pos (k + 1) oracle k 1 (by omega)
        show ((if (0 : Nat) = 0 then ([] : List Nat) else [0])
            ++ (retryLoopGo (k + 1) oracle 1 k).recoveries)
          = List.range' 1 ((retryLoopGo (k + 1) oracle 1 k).attemptsUsed - 1)
        rw [if_pos rfl, List.nil_append, h1]
    | error msg =>
      rw [retryLoopGo_error_step (k + 1) oracle 0 k msg h]
      obtain ⟨h1, h2⟩ := retryLoopGo_recoveries_pos (k + 1) oracle k 1 (by omega)
      show ((if (0 : Nat) = 0 then ([] : List Nat) else [0])
          ++ (retryLoopGo (k + 1) oracle 1 k).recoveries)
        = List.range' 1 ((retryLoopGo (k + 1) oracle 1 k).attemptsUsed - 1)
      rw [if_pos rfl, List.nil_append, h1]

theorem retryLoopGo_recoveries_head (m : Nat) (oracle : Nat → Except String String) :
    ∀ (k r : Nat), 1 ≤ r →
      ∃ tail, (retryLoopGo m oracle r k).recoveries = r :: tail := by
  intro k r hr
  obtain ⟨h1, h2⟩ := retryLoopGo_recoveries_pos m oracle k r hr
  refine ⟨List.range' (r + 1) ((retryLoopGo m oracle r k).attemptsUsed - r - 1), ?_⟩
  calc (retryLoopGo m oracle r k).recoveries
      = List.range' r ((retryLoopGo m oracle r k).attemptsUsed - r) := h1
    _ = r :: List.range' (r + 1) ((retryLoopGo m oracle r k).attemptsUsed - r - 1) := by
        conv_lhs =>
          rw [show (retryLoopGo m oracle r k).attemptsUsed - r
                = ((retryLoopGo m oracle r k).attemptsUsed - r - 1) + 1 by omega]
        rw [List.range'_succ]

/-! ### Batch-level lemmas -/

/-- A row the processor will not touch again when failure-retry is disabled:
it has no prompt, or it already carries some (possibly error) result. -/
def settledRow (row : CsvPromptRow) : Prop :=
  row.prompt = "" ∨ row.response ≠ ""

theorem response_ne_of_not_shouldProcess (retry : Bool) (row : CsvPromptRow)
    (h : shouldProcessRow retry row = false) : row.response ≠ "" := by
  intro hresp
  simp [shouldProcessRow, hresp] at h

theorem shouldProcessRow_false_of_response_ne (row : CsvPromptRow)
    (hresp : row.response ≠ "") : shouldProcessRow false row = false := by
  simp [shouldProcessRow, hresp]

theorem processRowModel_settled (retry : Bool) (m : Nat)
    (oracle : Nat → Except String String)
    (hne : ∀ a s, oracle a = .ok s → s ≠ "") (row : CsvPromptRow) :
    settledRow (processRowModel retry m oracle row).1 := by
  unfold processRowModel
  by_cases hs : shouldProcessRow retry row = true
  · by_cases hp : row.prompt = ""
    · simp [hs, hp, settledRow]
    · simp only [hs, hp, Bool.not_true, if_neg, Bool.false_eq_true, if_false, reduceIte]
      exact Or.inr (retryLoopGo_response_ne_empty m oracle hne m 0)
  · have hne' := response_ne_of_not_shouldProcess retry row (by simpa using hs)
    simp only [Bool.not_eq_true] at hs
    simp [hs, settledRow, hne']

theorem processRowModel_of_settled (m : Nat)
    (oracle : Nat → Except String String) (row : CsvPromptRow)
    (hs : settledRow row) :
    processRowModel false m oracle row = (row, false, 0) := by
  unfold processRowModel
  rcases hs with hp | hr
  · by_cases hsp : shouldProcessRow false row = true
    · simp [hsp, hp]
    · simp only [Bool.not_eq_true] at hsp
      simp [hsp]
  · simp [shouldProcessRow_false_of_response_ne row hr]

theorem settledRow_default : settledRow (default : CsvPromptRow) := Or.inl rfl

theorem runBatchAux_queue_length (retry : Bool) (m : Nat)
    (oracle : Nat → Nat → Except String String) :
    ∀ (order : List Nat) (q : List CsvPromptRow),
      (runBatchAux retry m oracle order q).queue.length = q.length := by
  intro order
  induction order with
  | nil => intro q; rfl
  | cons i rest ih =>
    intro q
    simp only [runBatchAux]
    rw [ih]
    simp

theorem runBatchAux_settled (retry : Bool) (m : Nat)
    (oracle : Nat → Nat → Except String String)
    (hne : ∀ i a s, oracle i a = .ok s → s ≠ "") :
    ∀ (order : List Nat) (q : List CsvPromptRow),
      (∀ i, settledRow (q.getD i default) ∨ i ∈ order) →
      ∀ i, settledRow ((runBatchAux retry m oracle order q).queue.getD i default) := by
  intro order
  induction order with
  | nil =>
    intro q h i
    rcases h i with hs | hmem
    · exact hs
    · cases hmem
  | cons i0 rest ih =>
    intro q h i
    simp only [runBatchAux]
    apply ih
    intro j
    by_cases hj : j = i0
    · subst hj
      left
      by_cases hlen : j < q.length
      · rw [getD_set_self _ _ _ _ hlen]
        exact processRowModel_settled retry m (oracle j) (hne j) _
      · rw [getD_of_length_le _ _ _ (by simp; omega)]
        exact settledRow_default
    · rw [getD_set_ne _ _ _ _ _ hj]
      rcases h j with hs | hmem
      · exact Or.inl hs
      · rcases List.mem_cons.mp hmem with he | hr
        · exact absurd he hj
        · exact Or.inr hr

theorem runBatchAux_count_zero (m : Nat)
    (oracle : Nat → Nat → Except String String) :
    ∀ (order : List Nat) (q : List CsvPromptRow),
      (∀ i, settledRow (q.getD i default)) →
      (runBatchAux false m oracle order q).processedCount = 0 := by
  intro order
  induction order with
  | nil => intro q _; rfl
  | cons i0 rest ih =>
    intro q h
    simp only [runBatchAux]
    rw [processRowModel_of_settled m (oracle i0) _ (h i0)]
    simp only [if_neg (by simp : ¬(false = true)), Nat.zero_add]
    apply ih
    intro j
    by_cases hj : j = i0
    · subst hj
      by_cases hlen : j < q.length
      · rw [getD_set_self _ _ _ _ hlen]
        exact h j
      · rw [getD_of_length_le _ _ _ (by simp; omega)]
        exact settledRow_default
    · rw [getD_set_ne _ _ _ _ _ hj]
      exact h j

theorem mem_batchOrder (n : Nat) (rev : Bool) (i : Nat) (h : i < n) :
    i ∈ batchOrder n rev := by
  unfold batchOrder
  by_cases hrev : rev = true <;> simp [hrev, List.mem_range, h]

theorem runBatch_settled (retry rev : Bool) (m : Nat)
    (oracle : Nat → Nat → Except String String)
    (hne : ∀ i a s, oracle i a = .ok s → s ≠ "")
    (rows : List CsvPromptRow) :
    ∀ i, settledRow ((runBatch retry rev m oracle rows).queue.getD i default) := by
  intro i
  apply runBatchAux_settled retry m oracle hne
  intro j
  by_cases hj : j < rows.length
  · exact Or.inr (mem_batchOrder rows.length rev j hj)
  · exact Or.inl (by rw [getD_of_length_le _ _ _ (by omega)]; exact settledRow_default)

/-- C1.  The skip policy is exactly as claimed: a unit is processed iff it
has no result, or its result contains the reserved error sentinel and
failure-retry is enabled; every unit with a non-error result is skipped.
The idempotent-resumption consequence, amended: a second run with
failure-retry disabled processes zero additional units provided every
response the interaction layer returned during the first run was non-empty
(an empty-string response leaves the unit without a result, and it is
processed again — see the counterexample). -/
theorem c1_skip_policy_and_idempotent_resumption :
    (∀ (retryFailedRows : Bool) (row : CsvPromptRow),
      shouldProcessRow retryFailedRows row = true ↔
        (row.response = "" ∨
          (strIncludes row.response errorIdentifier = true ∧ retryFailedRows = true)))
    ∧
    (∀ (retry1 rev1 rev2 : Bool) (m1 m2 : Nat)
        (oracle1 oracle2 : Nat → Nat → Except String String)
        (rows : List CsvPromptRow),
      (∀ i a s, oracle1 i a = .ok s → s ≠ "") →
      (runBatch false rev2 m2 oracle2
          (runBatch retry1 rev1 m1 oracle1 rows).queue).processedCount = 0) := by
  constructor
  · intro retryFailedRows row
    unfold shouldProcessRow
    by_cases h1 : row.response = "" <;>
      by_cases h3 : strIncludes row.response errorIdentifier = true <;>
      by_cases h4 : retryFailedRows = true <;>
      simp [h1, h3, h4]
  · intro retry1 rev1 rev2 m1 m2 oracle1 oracle2 rows hne
    apply runBatchAux_count_zero
    intro i
    exact runBatch_settled retry1 rev1 m1 oracle1 hne rows i

/-- C1 counterexample.  One pending unit whose interaction returns the empty
string on every attempt (as `waitForAssistantResponse`'s no-progress path
can): the first run processes it and stores `""`, which counts as "no
result", so a second run with failure-retry disabled processes it again —
refuting "running the batch twice ... processes zero additional units the
second time". -/
theorem c1_empty_result_reprocessed :
    (runBatch false false 0 (fun _ _ => .ok "") [⟨"A", "", ""⟩]).processedCount = 1
    ∧ (runBatch false false 0 (fun _ _ => .ok "")
        (runBatch false false 0 (fun _ _ => .ok "") [⟨"A", "", ""⟩]).queue).processedCount
      = 1 := by
  constructor
  · rfl
  · rfl

/-- C1 witness: a concrete two-run batch with non-empty interaction results
processes zero units the second time. -/
theorem c1_witness :
    (runBatch false false 1 (fun _ _ => .ok "ok")
        (runBatch true false 1 (fun _ _ => .ok "done") [⟨"A", "", ""⟩]).queue).processedCount
      = 0 :=
  c1_skip_policy_and_idempotent_resumption.2 true false false 1 1
    (fun _ _ => .ok "done") (fun _ _ => .ok "ok") [⟨"A", "", ""⟩]
    (by intro i a s h; injection h with h'; rw [← h']; decide)

/-- C2.  For every work unit and every outcome (success, skip, or failure),
the full queue is checkpointed after that unit is finished and before the
next unit begins: the event trace of a batch starting at unit `i`
decomposes as the unit's start, some intermediate saves (each itself a
full-queue checkpoint), a final checkpoint of the queue holding unit `i`'s
just-produced row, and only then the events of the remaining units (which
begin with the next unit's start, so checkpoints are never batched to the
end of the run). -/
theorem c2_checkpoint_per_unit (retryFailedRows : Bool) (maxRetries : Nat)
    (oracle : Nat → Nat → Except String String) (i : Nat) (rest : List Nat)
    (q : List CsvPromptRow) (hq : i < q.length) :
    ∃ saves : List BatchEvent,
      (runBatchAux retryFailedRows maxRetries oracle (i :: rest) q).events
        = BatchEvent.unitStart i :: saves
            ++ BatchEvent.checkpoint (stepQueue retryFailedRows maxRetries oracle i q)
            :: (runBatchAux retryFailedRows maxRetries oracle rest
                  (stepQueue retryFailedRows maxRetries oracle i q)).events
      ∧ (∀ e ∈ saves, ∃ snap, e = BatchEvent.checkpoint snap)
      ∧ (stepQueue retryFailedRows maxRetries oracle i q).getD i default
          = (processRowModel retryFailedRows maxRetries (oracle i) (q.getD i default)).1
      ∧ ((runBatchAux retryFailedRows maxRetries oracle rest
            (stepQueue retryFailedRows maxRetries oracle i q)).events = []
          ∧ rest = []
        ∨ ∃ j tail, rest.head? = some j
            ∧ (runBatchAux retryFailedRows maxRetries oracle rest
                (stepQueue retryFailedRows maxRetries oracle i q)).events
              = BatchEvent.unitStart j :: tail) := by
  refine ⟨if (processRowModel retryFailedRows maxRetries (oracle i) (q.getD i default)).2.1
      then [BatchEvent.checkpoint (stepQueue retryFailedRows maxRetries oracle i q)]
      else [], ?_, ?_, ?_, ?_⟩
  · simp only [runBatchAux, stepQueue]
    by_cases hp : (processRowModel retryFailedRows maxRetries (oracle i) (q.getD i default)).2.1
      <;> simp [hp]
  · intro e he
    by_cases hp : (processRowModel retryFailedRows maxRetries (oracle i) (q.getD i default)).2.1 = true
    · rw [if_pos hp] at he
      simp only [List.mem_singleton] at he
      exact ⟨_, he⟩
    · rw [if_neg hp] at he
      simp at he
  · exact getD_set_self _ _ _ _ hq
  · cases rest with
    | nil => exact Or.inl ⟨rfl, rfl⟩
    | cons j rest2 =>
      exact Or.inr ⟨j, _, rfl, rfl⟩

/-- C2 witness: the decomposition at a concrete two-unit queue. -/
theorem c2_witness :
    ∃ saves : List BatchEvent,
      (runBatchAux false 0 (fun _ _ => .ok "r") [0, 1]
          [⟨"A", "", ""⟩, ⟨"B", "", "done"⟩]).events
        = BatchEvent.unitStart 0 :: saves
            ++ BatchEvent.checkpoint (stepQueue false 0 (fun _ _ => .ok "r") 0
                [⟨"A", "", ""⟩, ⟨"B", "", "done"⟩])
            :: (runBatchAux false 0 (fun _ _ => .ok "r") [1]
                  (stepQueue false 0 (fun _ _ => .ok "r") 0
                    [⟨"A", "", ""⟩, ⟨"B", "", "done"⟩])).events
      ∧ (∀ e ∈ saves, ∃ snap, e = BatchEvent.checkpoint snap)
      ∧ (stepQueue false 0 (fun _ _ => .ok "r") 0
            [⟨"A", "", ""⟩, ⟨"B", "", "done"⟩]).getD 0 default
          = (processRowModel false 0 ((fun _ _ => .ok "r") 0)
              (([⟨"A", "", ""⟩, ⟨"B", "", "done"⟩] : List CsvPromptRow).getD 0 default)).1
      ∧ ((runBatchAux false 0 (fun _ _ => .ok "r") [1]
            (stepQueue false 0 (fun _ _ => .ok "r") 0
              [⟨"A", "", ""⟩, ⟨"B", "", "done"⟩])).events = []
          ∧ [1] = ([] : List Nat)
        ∨ ∃ j tail, ([1] : List Nat).head? = some j
            ∧ (runBatchAux false 0 (fun _ _ => .ok "r") [1]
                (stepQueue false 0 (fun _ _ => .ok "r") 0
                  [⟨"A", "", ""⟩, ⟨"B", "", "done"⟩])).events
              = BatchEvent.unitStart j :: tail) :=
  c2_checkpoint_per_unit false 0 (fun _ _ => .ok "r") 0 [1]
    [⟨"A", "", ""⟩, ⟨"B", "", "done"⟩] (by decide)

theorem processRowModel_pending_ok (retry : Bool) (m : Nat)
    (oracle : Nat → Except String String) (row : CsvPromptRow) (resp : String)
    (hp : row.prompt ≠ "") (hr : row.response = "")
    (hok : ∀ a, oracle a = .ok resp) :
    processRowModel retry m oracle row
      = ({ row with response := resp }, true, (retryLoop m oracle).attemptsUsed) := by
  have hs : shouldProcessRow retry row = true := by simp [shouldProcessRow, hr]
  have hresp := retryLoopGo_response_const_ok m oracle resp hok m 0
  unfold processRowModel retryLoop
  simp [hs, hp, hresp]

theorem processRowModel_pending_error (retry : Bool) (m : Nat)
    (oracle : Nat → Except String String) (row : CsvPromptRow) (msg : Nat → String)
    (hp : row.prompt ≠ "") (hr : row.response = "")
    (herr : ∀ a, oracle a = .error (msg a)) :
    processRowModel retry m oracle row
      = ({ row with response := mkErrorResponse m (msg m) }, true, m + 1) := by
  have hs : shouldProcessRow retry row = true := by simp [shouldProcessRow, hr]
  obtain ⟨hresp, hatt⟩ := retryLoopGo_all_error m oracle msg herr m 0 (by omega)
  unfold processRowModel retryLoop
  simp [hs, hp]
  exact ⟨hresp, hatt⟩

/-- C3.  Failure isolation: in a three-unit queue whose middle unit's
interaction throws on every attempt, the exception stays at the per-unit
boundary — the middle unit's result becomes the error sentinel plus the last
error's description after exactly `maxAttempts` (= `maxRetries + 1` total)
attempts, the batch continues, and the flanking units end with their normal
results. -/
theorem c3_failure_isolation (m : Nat) (oracle : Nat → Nat → Except String String)
    (ra rb rc : CsvPromptRow) (respA respC : String) (msg : Nat → String)
    (hpa : ra.prompt ≠ "") (hra : ra.response = "")
    (hpb : rb.prompt ≠ "") (hrb : rb.response = "")
    (hpc : rc.prompt ≠ "") (hrc : rc.response = "")
    (hA : ∀ a, oracle 0 a = .ok respA)
    (hB : ∀ a, oracle 1 a = .error (msg a))
    (hC : ∀ a, oracle 2 a = .ok respC) :
    (runBatch true false m oracle [ra, rb, rc]).queue
      = [{ ra with response := respA },
         { rb with response := mkErrorResponse m (msg m) },
         { rc with response := respC }]
    ∧ (processRowModel true m (oracle 1) rb).2.2 = maxAttempts m
    ∧ (processRowModel true m (oracle 1) rb).2.1 = true := by
  refine ⟨?_, ?_, ?_⟩
  · unfold runBatch
    rw [show batchOrder ([ra, rb, rc] : List CsvPromptRow).length false = [0, 1, 2] from rfl]
    simp [runBatchAux,
      processRowModel_pending_ok true m (oracle 0) ra respA hpa hra hA,
      processRowModel_pending_error true m (oracle 1) rb msg hpb hrb hB,
      processRowModel_pending_ok true m (oracle 2) rc respC hpc hrc hC]
  · rw [processRowModel_pending_error true m (oracle 1) rb msg hpb hrb hB]
    rfl
  · rw [processRowModel_pending_error true m (oracle 1) rb msg hpb hrb hB]

/-- C3 witness: the spec's example — queue A, B, C with `maxRetries = 1`
(two total attempts), B always raising `SurfaceTimeout`. -/
theorem c3_witness :
    (runBatch true false 1
        (fun i _ => if i = 1 then Except.error "SurfaceTimeout"
          else if i = 0 then Except.ok "ok-A" else Except.ok "ok-C")
        [⟨"A", "", ""⟩, ⟨"B", "", ""⟩, ⟨"C", "", ""⟩]).queue
      = [⟨"A", "", "ok-A"⟩, ⟨"B", "", mkErrorResponse 1 "SurfaceTimeout"⟩,
         ⟨"C", "", "ok-C"⟩]
    ∧ (processRowModel true 1
        ((fun i _ => if i = 1 then Except.error "SurfaceTimeout"
          else if i = 0 then Except.ok "ok-A" else Except.ok "ok-C") 1)
        ⟨"B", "", ""⟩).2.2 = maxAttempts 1
    ∧ (processRowModel true 1
        ((fun i _ => if i = 1 then Except.error "SurfaceTimeout"
          else if i = 0 then Except.ok "ok-A" else Except.ok "ok-C") 1)
        ⟨"B", "", ""⟩).2.1 = true :=
  c3_failure_isolation 1
    (fun i _ => if i = 1 then Except.error "SurfaceTimeout"
      else if i = 0 then Except.ok "ok-A" else Except.ok "ok-C")
    ⟨"A", "", ""⟩ ⟨"B", "", ""⟩ ⟨"C", "", ""⟩ "ok-A" "ok-C" (fun _ => "SurfaceTimeout")
    (by decide) rfl (by decide) rfl (by decide) rfl
    (fun _ => rfl) (fun _ => rfl) (fun _ => rfl)

/-- C8.  Backoff: any run of the retry loop sleeps exactly one backoff delay
per retry, for consecutive retry numbers `1 .. attemptsUsed - 1`, the delay
before retry `a` being `min(initialDelay * 2^(a-1), maxDelay)`; this
sequence is non-decreasing in `a` and never exceeds `maxDelay`. -/
theorem c8_backoff :
    (∀ (m : Nat) (oracle : Nat → Except String String),
      (retryLoop m oracle).recoveries
        = List.range' 1 ((retryLoop m oracle).attemptsUsed - 1))
    ∧ (∀ (initialDelay maxDelay m : Nat) (oracle : Nat → Except String String),
      sleptBackoffs initialDelay maxDelay (retryLoop m oracle)
        = (List.range' 1 ((retryLoop m oracle).attemptsUsed - 1)).map
            (backoffDelay initialDelay maxDelay))
    ∧ (∀ initialDelay maxDelay a b : Nat, a ≤ b →
        backoffDelay initialDelay maxDelay a ≤ backoffDelay initialDelay maxDelay b)
    ∧ (∀ initialDelay maxDelay a : Nat,
        backoffDelay initialDelay maxDelay a ≤ maxDelay) := by
  refine ⟨retryLoop_recoveries, ?_, ?_, ?_⟩
  · intro initialDelay maxDelay m oracle
    unfold sleptBackoffs
    rw [retryLoop_recoveries]
  · intro initialDelay maxDelay a b hab
    unfold backoffDelay
    exact min_le_min
      (Nat.mul_le_mul_left _ (Nat.pow_le_pow_right (by omega) (by omega)))
      (Nat.le_refl _)
  · intro initialDelay maxDelay a
    exact Nat.min_le_right _ _

/-- C8 witness: concrete monotone, capped delays with the configured
constants (5000 initial, 30000 cap), and the recovery schedule of a run
that retries twice. -/
theorem c8_witness :
    backoffDelay initialRetryDelay maxRetryDelay 2
      ≤ backoffDelay initialRetryDelay maxRetryDelay 3
    ∧ backoffDelay initialRetryDelay maxRetryDelay 4 ≤ maxRetryDelay
    ∧ (retryLoop 2 (fun _ => Except.error "boom")).recoveries
      = List.range' 1 ((retryLoop 2 (fun _ => Except.error "boom")).attemptsUsed - 1) :=
  ⟨c8_backoff.2.2.1 initialRetryDelay maxRetryDelay 2 3 (by decide),
   c8_backoff.2.2.2 initialRetryDelay maxRetryDelay 4,
   c8_backoff.1 2 (fun _ => Except.error "boom")⟩

/-- C10.  The checkpoint writer's backup policy: an existing `<csvPath>.bak`
is never overwritten (by this run or later ones); a backup is created only
when the main CSV exists and no backup does, and then it holds exactly the
main file's contents just before the run's first checkpoint write; every
checkpoint overwrites the main CSV in place. -/
theorem c10_backup_policy :
    (∀ (fs : CsvFs) (c b : String), fs.bak = some b →
        (writeCsvPrompts fs c).bak = some b)
    ∧ (∀ (fs : CsvFs) (c : String), fs.bak = none → fs.main = none →
        (writeCsvPrompts fs c).bak = none)
    ∧ (∀ (fs : CsvFs) (c : String), (writeCsvPrompts fs c).main = some c)
    ∧ (∀ (m0 c : String) (cs : List String),
        (writeCsvRun ⟨some m0, none⟩ (c :: cs)).bak = some m0
        ∧ (writeCsvRun ⟨some m0, none⟩ (c :: cs)).main
            = some ((c :: cs).getLast (by simp)))
    ∧ (∀ (fs : CsvFs) (cs : List String) (b : String), fs.bak = some b →
        (writeCsvRun fs cs).bak = some b) := by
  have hkeep : ∀ (fs : CsvFs) (cs : List String) (b : String), fs.bak = some b →
      (writeCsvRun fs cs).bak = some b := by
    intro fs cs
    induction cs generalizing fs with
    | nil => intro b hb; exact hb
    | cons c cs ih =>
      intro b hb
      show (writeCsvRun (writeCsvPrompts fs c) cs).bak = some b
      apply ih
      simp [writeCsvPrompts, hb]
  have hlast : ∀ (cs : List String) (c : String) (fs : CsvFs),
      (writeCsvRun fs (c :: cs)).main = some ((c :: cs).getLast (by simp)) := by
    intro cs
    induction cs with
    | nil => intro c fs; rfl
    | cons c2 cs ih =>
      intro c fs
      show (writeCsvRun (writeCsvPrompts fs c) (c2 :: cs)).main = _
      rw [ih c2 (writeCsvPrompts fs c)]
      simp [List.getLast]
  refine ⟨?_, ?_, ?_, ?_, hkeep⟩
  · intro fs c b hb
    simp [writeCsvPrompts, hb]
  · intro fs c hb hm
    simp [writeCsvPrompts, hb, hm]
  · intro fs c
    rfl
  · intro m0 c cs
    constructor
    · show (writeCsvRun (writeCsvPrompts ⟨some m0, none⟩ c) cs).bak = some m0
      apply hkeep
      rfl
    · exact hlast cs c ⟨some m0, none⟩

/-- C10 witness: a pre-existing backup survives two more checkpoints, and a
fresh run backs up the original contents while the main file ends at the
last checkpoint. -/
theorem c10_witness :
    (writeCsvRun ⟨some "current", some "old-backup"⟩ ["q1", "q2"]).bak
      = some "old-backup"
    ∧ (writeCsvRun ⟨some "original", none⟩ ["q1", "q2"]).bak = some "original"
    ∧ (writeCsvRun ⟨some "original", none⟩ ["q1", "q2"]).main = some "q2" :=
  ⟨c10_backup_policy.2.2.2.2 ⟨some "current", some "old-backup"⟩ ["q1", "q2"]
      "old-backup" rfl,
   (c10_backup_policy.2.2.2.1 "original" "q1" ["q2"]).1,
   (c10_backup_policy.2.2.2.1 "original" "q1" ["q2"]).2⟩

/-- C5 counterexample.  When the hard ceiling elapses (no tick resolved) and
the final probe finds only empty content, the waiter does not terminate in a
TIMEOUT state returning the empty string — it rethrows the timeout error,
refuting "returning whatever partial content is available — possibly the
empty string — rather than raising an error". -/
theorem c5_empty_timeout_raises :
    waitForAssistantResponseModel 120000
        [⟨false, false, false, true, "", false⟩] initDetState (some "")
      = Except.error (timeoutMsg 120000)
    ∧ ∀ p, waitForAssistantResponseModel 120000
        [⟨false, false, false, true, "", false⟩] initDetState (some "")
      ≠ Except.ok p := by
  refine ⟨rfl, ?_⟩
  intro p h
  rw [show waitForAssistantResponseModel 120000
      [⟨false, false, false, true, "", false⟩] initDetState (some "")
    = Except.error (timeoutMsg 120000) from rfl] at h
  exact Except.noConfusion h

/-- C5, amended.  When the hard ceiling elapses with no completion signal,
the waiter returns the partial content only when it is non-empty; when the
final probe yields the empty string or fails, the timeout error is raised
instead (and is then handled by the caller's per-attempt error path).  An
individual probe failure during a tick is swallowed and the tick leaves the
wait state unchanged ("not yet determined"). -/
theorem c5_timeout_behavior :
    (∀ (t : Nat) (ticks : List TickObs) (s : DetState) (p : String),
      runTicks ticks s = none → p ≠ "" →
      waitForAssistantResponseModel t ticks s (some p) = Except.ok p)
    ∧ (∀ (t : Nat) (ticks : List TickObs) (s : DetState),
      runTicks ticks s = none →
      waitForAssistantResponseModel t ticks s (some "") = Except.error (timeoutMsg t)
      ∧ waitForAssistantResponseModel t ticks s none = Except.error (timeoutMsg t))
    ∧ (∀ (o : TickObs) (s : DetState), o.probeFail = true →
      responseCheckTick o s = TickResult.pending s) := by
  refine ⟨?_, ?_, ?_⟩
  · intro t ticks s p hnone hp
    unfold waitForAssistantResponseModel
    rw [hnone]
    simp [hp]
  · intro t ticks s hnone
    unfold waitForAssistantResponseModel
    rw [hnone]
    exact ⟨rfl, rfl⟩
  · intro o s hfail
    unfold responseCheckTick
    rw [hfail]
    rfl

/-- C5 witness: a non-empty partial is returned on timeout, and a failing
probe tick is treated as not-yet-determined. -/
theorem c5_witness :
    waitForAssistantResponseModel 180000
        [⟨false, false, false, false, "", false⟩] initDetState (some "part")
      = Except.ok "part"
    ∧ responseCheckTick ⟨true, true, true, true, "xyz", true⟩ initDetState
      = TickResult.pending initDetState :=
  ⟨c5_timeout_behavior.1 180000 [⟨false, false, false, false, "", false⟩]
      initDetState "part" rfl (by decide),
   c5_timeout_behavior.2.2 ⟨true, true, true, true, "xyz", true⟩ initDetState rfl⟩

/-- C6 counterexample.  With no predicate firing and an existing but empty
assistant message, the content length (0) is unchanged since the baseline
and the accumulated stable time (6 × 5000 ms) exceeds the window
(15000 ms), so the claim's "completion is declared exactly when the content
length has remained unchanged for accumulated stable time ≥ the stability
window" predicts completion — but the tick continues (the code requires
`currentLength > 0`) and even resets the accumulation. -/
theorem c6_zero_length_stability_fails :
    responseCheckTick ⟨false, false, false, true, "", false⟩ ⟨0, 5, 15000⟩
      = TickResult.pending ⟨0, 0, 15000⟩
    ∧ ∀ p, responseCheckTick ⟨false, false, false, true, "", false⟩ ⟨0, 5, 15000⟩
      ≠ TickResult.resolved p := by
  refine ⟨by decide, ?_⟩
  intro p h
  rw [show responseCheckTick ⟨false, false, false, true, "", false⟩ ⟨0, 5, 15000⟩
      = TickResult.pending ⟨0, 0, 15000⟩ from by decide] at h
  exact TickResult.noConfusion h

/-- C6, amended.  Per tick the predicates are evaluated in fixed priority
order — send-button idle, then Regenerate, then Continue: either of the
first two firing short-circuits the rest (the outcome is independent of the
later predicates, and the stability window is left untouched) and declares
completion provided a non-empty payload is retrievable; the Continue marker
only shortens the stability window to 5000 ms; otherwise completion is
declared exactly when the content length is positive and unchanged since the
baseline with accumulated stable time ≥ the window, any length change
resetting the accumulation. -/
theorem c6_tick_priority_and_stability :
    (∀ (o : TickObs) (s : DetState) (rg cb : Bool),
      o.probeFail = false → o.sendEnabled = true →
      (o.text ≠ "" → responseCheckTick o s = TickResult.resolved o.text)
      ∧ responseCheckTick o s
        = responseCheckTick ⟨true, rg, cb, o.hasResponse, o.text, false⟩ s)
    ∧ (∀ (o : TickObs) (s : DetState) (cb : Bool),
      o.probeFail = false → o.sendEnabled = false → o.regenerate = true →
      (o.text ≠ "" → responseCheckTick o s = TickResult.resolved o.text)
      ∧ responseCheckTick o s
        = responseCheckTick ⟨false, true, cb, o.hasResponse, o.text, false⟩ s)
    ∧ (∀ (o : TickObs) (s : DetState),
      o.probeFail = false → o.sendEnabled = false → o.regenerate = false →
      o.continueBtn = true →
      responseCheckTick o s
        = responseCheckTick ⟨false, false, false, o.hasResponse, o.text, false⟩
            ⟨s.lastLength, s.stableCount, 5000⟩)
    ∧ (∀ (o : TickObs) (s : DetState),
      o.probeFail = false → o.sendEnabled = false → o.regenerate = false →
      o.continueBtn = false → o.hasResponse = true →
      ((responseCheckTick o s = TickResult.resolved o.text)
        ↔ (0 < o.text.length ∧ o.text.length = s.lastLength
            ∧ s.maxStableTime ≤ (s.stableCount + 1) * 5000))
      ∧ (o.text.length ≠ s.lastLength →
          responseCheckTick o s
            = TickResult.pending ⟨o.text.length, 0, s.maxStableTime⟩)) := by
  refine ⟨?_, ?_, ?_, ?_⟩
  · intro o s rg cb hpf hse
    constructor
    · intro htx
      simp [responseCheckTick, isResponseCompleteModel, hpf, hse, htx]
    · simp [responseCheckTick, isResponseCompleteModel, hpf, hse]
  · intro o s cb hpf hse hrg
    constructor
    · intro htx
      simp [responseCheckTick, isResponseCompleteModel, hpf, hse, hrg, htx]
    · simp [responseCheckTick, isResponseCompleteModel, hpf, hse, hrg]
  · intro o s hpf hse hrg hcb
    simp [responseCheckTick, isResponseCompleteModel, hpf, hse, hrg, hcb]
  · intro o s hpf hse hrg hcb hhr
    have hform : responseCheckTick o s
        = if o.text.length > 0 ∧ o.text.length = s.lastLength then
            (if (s.stableCount + 1) * 5000 ≥ s.maxStableTime then
              TickResult.resolved o.text
            else TickResult.pending ⟨o.text.length, s.stableCount + 1, s.maxStableTime⟩)
          else TickResult.pending ⟨o.text.length, 0, s.maxStableTime⟩ := by
      simp [responseCheckTick, isResponseCompleteModel, hpf, hse, hrg, hcb, hhr]
    constructor
    · rw [hform]
      by_cases h1 : o.text.length > 0 ∧ o.text.length = s.lastLength
      · by_cases h2 : (s.stableCount + 1) * 5000 ≥ s.maxStableTime
        · rw [if_pos h1, if_pos h2]
          exact ⟨fun _ => ⟨h1.1, h1.2, h2⟩, fun _ => rfl⟩
        · rw [if_pos h1, if_neg h2]
          constructor
          · intro h
            exact TickResult.noConfusion h
          · intro h
            exact absurd h.2.2 h2
      · rw [if_neg h1]
        constructor
        · intro h
          exact TickResult.noConfusion h
        · intro h
          exact absurd ⟨h.1, h.2.1⟩ h1
    · intro hne
      rw [hform, if_neg (fun hc => hne hc.2)]

/-- C6 witness: a concrete tick where the send button re-enabled and a
non-empty payload exists resolves at once; and a concrete stability
completion. -/
theorem c6_witness :
    responseCheckTick ⟨true, false, false, true, "done!", false⟩ initDetState
      = TickResult.resolved "done!"
    ∧ (responseCheckTick ⟨false, false, false, true, "abc", false⟩ ⟨3, 2, 15000⟩
        = TickResult.resolved "abc"
      ↔ (0 < ("abc" : String).length ∧ ("abc" : String).length = 3
          ∧ 15000 ≤ (2 + 1) * 5000)) :=
  ⟨(c6_tick_priority_and_stability.1 ⟨true, false, false, true, "done!", false⟩
      initDetState false false rfl rfl).1 (by decide),
   (c6_tick_priority_and_stability.2.2.2 ⟨false, false, false, true, "abc", false⟩
      ⟨3, 2, 15000⟩ rfl rfl rfl rfl rfl).1⟩

/-- A response in the expected grading format (passes
`validateResponseFormat`), used to exercise the acceptance paths. -/
def sampleGradeResponse : String :=
  "<GRADE_DATA>\n<Student ID>123</Student ID>\n<Total Score>10</Total Score>\n</GRADE_DATA>"

/-- C9 counterexample.  The wait resolves COMPLETE — the send-button
predicate fires and the payload `"hello"` is returned — yet the orchestrator
does not accept it unconditionally: the payload fails the grading-format
validation, so with one retry allowed it performs a retry (recovery `[1]`)
and consumes two attempts, refuting "without any further condition on the
payload's content causing a retry". -/
theorem c9_complete_not_unconditional :
    responseCheckTick ⟨true, false, false, true, "hello", false⟩ initDetState
      = TickResult.resolved "hello"
    ∧ retryLoopGo 1 (fun _ => Except.ok "hello") 0 1
      = ⟨"hello", 2, [1]⟩ := by
  exact ⟨by decide, by decide⟩

/-- C9, amended.  On a COMPLETE payload the orchestrator's acceptance is
conditional on the grading-format validation: a payload passing
`validateResponseFormat` is stored at once with no further attempt; on the
final attempt any payload is stored regardless; a payload failing validation
with retries remaining triggers a retry. -/
theorem c9_complete_acceptance :
    (∀ (m : Nat) (oracle : Nat → Except String String) (r k : Nat) (p : String),
      oracle r = Except.ok p → validateResponseFormat p = true →
      retryLoopGo m oracle r k = ⟨p, r + 1, if r = 0 then [] else [r]⟩)
    ∧ (∀ (m : Nat) (oracle : Nat → Except String String) (r : Nat) (p : String),
      oracle r = Except.ok p →
      retryLoopGo m oracle r 0 = ⟨p, r + 1, if r = 0 then [] else [r]⟩)
    ∧ (∀ (m : Nat) (oracle : Nat → Except String String) (r k : Nat) (p : String),
      oracle r = Except.ok p → validateResponseFormat p = false →
      retryLoopGo m oracle r (k + 1)
        = ⟨(retryLoopGo m oracle (r + 1) k).response,
           (retryLoopGo m oracle (r + 1) k).attemptsUsed,
           (if r = 0 then [] else [r]) ++ (retryLoopGo m oracle (r + 1) k).recoveries⟩) :=
  ⟨fun m oracle r k p hok hv => retryLoopGo_ok_valid m oracle r k p hok hv,
   fun m oracle r p hok => retryLoopGo_final_ok m oracle r p hok,
   fun m oracle r k p hok hv => retryLoopGo_ok_invalid m oracle r k p hok hv⟩

/-- C9 witness: a well-formed grading payload is accepted on the first
attempt with no retries. -/
theorem c9_witness :
    retryLoopGo 2 (fun _ => Except.ok sampleGradeResponse) 0 2
      = ⟨sampleGradeResponse, 1, []⟩ := by
  have h := c9_complete_acceptance.1 2 (fun _ => Except.ok sampleGradeResponse) 0 2
    sampleGradeResponse rfl (by decide)
  simpa using h

/-- C4 counterexample.  A wait ending in TIMEOUT with the non-empty partial
payload `"hi"` does return that payload, but the orchestrator does not
accept it "without retrying and without consuming an extra attempt": the
partial fails the grading-format validation, so with one retry allowed the
attempt is retried (recovery `[1]`) and two attempts are consumed. -/
theorem c4_soft_success_retries_invalid :
    waitForAssistantResponseModel 120000 [] initDetState (some "hi")
      = Except.ok "hi"
    ∧ retryLoopGo 1 (fun _ => Except.ok "hi") 0 1
      = ⟨"hi", 2, [1]⟩ := by
  exact ⟨rfl, by decide⟩

/-- C4, amended.  On TIMEOUT with a non-empty partial payload the wait (and,
when the error propagates, `handleResponseError`) returns the payload
instead of raising, so the wait itself is never retried for being slow; the
orchestrator then stores the partial as the unit's result without a further
attempt iff it passes the grading-format validation (or no retries remain);
a partial failing validation with retries remaining costs an extra
attempt. -/
theorem c4_soft_success :
    (∀ (t : Nat) (ticks : List TickObs) (s : DetState) (p : String),
      runTicks ticks s = none → p ≠ "" →
      waitForAssistantResponseModel t ticks s (some p) = Except.ok p)
    ∧ (∀ (e p : String), p ≠ "" → handleResponseErrorModel e (some p) = Except.ok p)
    ∧ (∀ (e : String) (probe : Option String),
      sendMessageWithAttachmentsModel (Except.error e) probe
        = handleResponseErrorModel e probe)
    ∧ (∀ (r : String) (probe : Option String),
      sendMessageWithAttachmentsModel (Except.ok r) probe = Except.ok r)
    ∧ (∀ (m : Nat) (oracle : Nat → Except String String) (r k : Nat) (p : String),
      oracle r = Except.ok p → validateResponseFormat p = true →
      (retryLoopGo m oracle r k).response = p
      ∧ (retryLoopGo m oracle r k).attemptsUsed = r + 1)
    ∧ (∀ (m : Nat) (oracle : Nat → Except String String) (r k : Nat) (p : String),
      oracle r = Except.ok p → validateResponseFormat p = false →
      (retryLoopGo m oracle r (k + 1)).attemptsUsed
        = (retryLoopGo m oracle (r + 1) k).attemptsUsed) := by
  refine ⟨?_, ?_, ?_, ?_, ?_, ?_⟩
  · intro t ticks s p hnone hp
    unfold waitForAssistantResponseModel
    rw [hnone]
    simp [hp]
  · intro e p hp
    simp [handleResponseErrorModel, hp]
  · intro e probe
    rfl
  · intro r probe
    rfl
  · intro m oracle r k p hok hv
    rw [retryLoopGo_ok_valid m oracle r k p hok hv]
    exact ⟨rfl, rfl⟩
  · intro m oracle r k p hok hv
    rw [retryLoopGo_ok_invalid m oracle r k p hok hv]

/-- C4 witness: a timed-out wait with a valid-format partial payload is
returned and accepted on the current attempt. -/
theorem c4_witness :
    waitForAssistantResponseModel 60000 [] initDetState (some sampleGradeResponse)
      = Except.ok sampleGradeResponse
    ∧ (retryLoopGo 3 (fun _ => Except.ok sampleGradeResponse) 0 3).attemptsUsed = 1 :=
  ⟨c4_soft_success.1 60000 [] initDetState sampleGradeResponse rfl (by decide),
   (c4_soft_success.2.2.2.2.1 3 (fun _ => Except.ok sampleGradeResponse) 0 3
      sampleGradeResponse rfl (by decide)).2⟩

/-- C7 counterexample.  Session loss mid-wait with a non-empty partial
payload that happens to pass the grading-format validation: the detector
resolves with the partial (not a distinguished SESSION_LOST state), and the
orchestrator accepts it as an ordinary success on the first attempt, with no
retry and no baseline re-validation — exactly the soft-success treatment the
claim says session loss must not receive. -/
theorem c7_session_loss_soft_success :
    uiResponseCheckTick
        ⟨true, some sampleGradeResponse, false, false, false, false, "", false⟩
        initDetState
      = TickResult.resolved sampleGradeResponse
    ∧ retryLoopGo 3 (fun _ => Except.ok sampleGradeResponse) 0 3
      = ⟨sampleGradeResponse, 1, []⟩ := by
  exact ⟨by decide, by decide⟩

/-- C7, amended.  On divergence to a new chat the tick terminates
immediately (independently of every other signal), resolving with the
last-probed partial payload when non-empty and otherwise with the in-band
sentinel string; the sentinel fails the grading-format validation, so the
orchestrator retries it while attempts remain, running the recovery step
(backoff sleep plus chat-interface re-verification, recorded in
`recoveries`) before the next attempt; but a non-empty partial passing
validation is accepted as an ordinary success. -/
theorem c7_session_loss :
    (∀ (o : UiTickObs) (s : DetState), o.newChat = true →
      uiResponseCheckTick o s
        = TickResult.resolved
            (if o.lossProbe.getD "" = "" then navigationErrorMsg
              else o.lossProbe.getD ""))
    ∧ validateResponseFormat navigationErrorMsg = false
    ∧ (∀ (m : Nat) (oracle : Nat → Except String String) (r k : Nat),
      oracle r = Except.ok navigationErrorMsg →
      (retryLoopGo m oracle r (k + 1)).attemptsUsed
          = (retryLoopGo m oracle (r + 1) k).attemptsUsed
      ∧ ∃ tail, (retryLoopGo m oracle r (k + 1)).recoveries
          = (if r = 0 then [] else [r]) ++ (r + 1) :: tail) := by
  refine ⟨?_, by decide, ?_⟩
  · intro o s hnc
    unfold uiResponseCheckTick
    rw [hnc]
    simp
  · intro m oracle r k hok
    have hinv : validateResponseFormat navigationErrorMsg = false := by decide
    rw [retryLoopGo_ok_invalid m oracle r k navigationErrorMsg hok hinv]
    refine ⟨rfl, ?_⟩
    obtain ⟨tail, htail⟩ := retryLoopGo_recoveries_head m oracle k (r + 1) (by omega)
    exact ⟨tail, by rw [htail]⟩

/-- C7 witness: a session-lost tick with a failing loss probe resolves with
the sentinel, and the sentinel response causes a retry whose recovery runs
before attempt 2. -/
theorem c7_witness :
    uiResponseCheckTick ⟨true, none, true, true, true, true, "zz", true⟩ initDetState
      = TickResult.resolved navigationErrorMsg
    ∧ ((retryLoopGo 2 (fun _ => Except.ok navigationErrorMsg) 0 2).attemptsUsed
        = (retryLoopGo 2 (fun _ => Except.ok navigationErrorMsg) 1 1).attemptsUsed
      ∧ ∃ tail, (retryLoopGo 2 (fun _ => Except.ok navigationErrorMsg) 0 2).recoveries
        = (if (0 : Nat) = 0 then [] else [0]) ++ 1 :: tail) := by
  constructor
  · have h := c7_session_loss.1 ⟨true, none, true, true, true, true, "zz", true⟩
      initDetState rfl
    simpa using h
  · exact c7_session_loss.2.2 2 (fun _ => Except.ok navigationErrorMsg) 0 1 rfl
